import Mathlib

/-!
Verification development for the YouTube transcript gateway server
(`src/index.js`): identifier normalization (`extractVideoId`), the
TTL result cache, the fixed-window rate limiter, the timeout-bounded
`GET /transcript` handler, the error classifier inside
`fetchTranscript`, and the cache-management endpoints.
-/

deriving instance DecidableEq for Except

namespace YtWorker

/-- `isPre m l` : the character list `m` is a prefix of `l`
(our own prefix check, used to model JavaScript regex literal matching). -/
def isPre : List Char → List Char → Bool
  | [], _ => true
  | _ :: _, [] => false
  | a :: as, b :: bs => a == b && isPre as bs

/-- Scan `l` left to right for the first position where the literal `m`
matches and is followed by at least one character not satisfying `stop`;
return the maximal run of non-`stop` characters after `m` (the capture of a
JS regex `m([^stop]+)` searched unanchored, leftmost match first). -/
def captureAfter (m : List Char) (stop : Char → Bool) : List Char → Option (List Char)
  | [] => none
  | c :: t =>
    if isPre m (c :: t) then
      if (((c :: t).drop m.length).takeWhile (fun x => !stop x)).isEmpty then
        captureAfter m stop t
      else some (((c :: t).drop m.length).takeWhile (fun x => !stop x))
    else captureAfter m stop t

/-- Characters allowed in a bare video id: `[a-zA-Z0-9_-]`. -/
def isIdChar (c : Char) : Bool := c.isAlpha || c.isDigit || c == '_' || c == '-'

def watchMarker : List Char := "youtube.com/watch?v=".data
def embedMarker : List Char := "youtube.com/embed/".data
def shortMarker : List Char := "youtu.be/".data

/-- Core of `extractVideoId` (src/index.js lines 333-347): the four regex
patterns tried in their fixed source order, first match wins.  The optional
`(?:https?:\/\/)?(?:www\.)?` prefixes make the mandatory part of each URL
pattern an unanchored literal search, modelled by `captureAfter`. -/
def extractCore (url : List Char) : Option (List Char) :=
  match captureAfter watchMarker (fun c => c == '&') url with
  | some cap => some cap
  | none =>
    match captureAfter embedMarker (fun c => c == '?') url with
    | some cap => some cap
    | none =>
      match captureAfter shortMarker (fun c => c == '?') url with
      | some cap => some cap
      | none =>
        if url.length == 11 && url.all isIdChar then some url else none

/-- `extractVideoId` (src/index.js lines 333-347); `none` models the thrown
`Invalid YouTube URL` error. -/
def extractVideoId (url : String) : Option String :=
  (extractCore url.data).map String.mk

example : extractVideoId "https://www.youtube.com/watch?v=abc12345678" = some "abc12345678" := by decide
example : extractVideoId "https://www.youtube.com/embed/abc12345678" = some "abc12345678" := by decide
example : extractVideoId "https://youtu.be/abc12345678" = some "abc12345678" := by decide
example : extractVideoId "abc12345678" = some "abc12345678" := by decide
example : extractVideoId "hello" = none := by decide

section NormalizerLemmas

lemma isPre_append_self (m l : List Char) : isPre m (m ++ l) = true := by
  induction m with
  | nil => rfl
  | cons a as ih => simp [isPre, ih]

lemma isPre_of_long (m : List Char) :
    ∀ (x l : List Char), m.length ≤ x.length → isPre m (x ++ l) = isPre m x := by
  induction m with
  | nil => intro x l _; rfl
  | cons a as ih =>
    intro x l h
    cases x with
    | nil => simp at h
    | cons b bs =>
      show (a == b && isPre as (bs ++ l)) = (a == b && isPre as bs)
      rw [ih bs l (by simpa using h)]

lemma isPre_mem (m : List Char) :
    ∀ (l : List Char), isPre m l = true → ∀ c ∈ m, c ∈ l := by
  induction m with
  | nil => intro l _ c hc; simp at hc
  | cons a as ih =>
    intro l h c hc
    cases l with
    | nil => simp [isPre] at h
    | cons b bs =>
      simp only [isPre, Bool.and_eq_true, beq_iff_eq] at h
      rcases List.mem_cons.mp hc with rfl | hc'
      · exact h.1 ▸ List.mem_cons_self _ _
      · exact List.mem_cons_of_mem _ (ih bs h.2 c hc')

lemma isPre_drop (q : List Char) :
    ∀ (m l : List Char), q.length ≤ m.length → isPre m (q ++ l) = true →
      isPre (m.drop q.length) l = true := by
  induction q with
  | nil => intro m l _ h; simpa using h
  | cons c q' ih =>
    intro m l hlen h
    cases m with
    | nil => simp at hlen
    | cons a as =>
      simp only [List.cons_append, isPre, Bool.and_eq_true] at h
      simpa using ih as l (by simpa using hlen) h.2

/-- `noWin m p` : at no position of `p` whose remaining window is at least
`|m|` long does the literal `m` match. -/
def noWin (m : List Char) : List Char → Bool
  | [] => true
  | c :: t =>
    (if m.length ≤ (c :: t).length then !(isPre m (c :: t)) else true) && noWin m t

/-- `noWinM m p` : the literal `m` does not match at any position strictly
inside `p` when `p` is immediately followed by `m` itself. -/
def noWinM (m : List Char) : List Char → Bool
  | [] => true
  | c :: t => !(isPre m ((c :: t) ++ m)) && noWinM m t

lemma captureAfter_sym_none (m : List Char) (stop : Char → Bool)
    (hbad : ∃ c ∈ m, isIdChar c = false) :
    ∀ (l : List Char), (∀ c ∈ l, isIdChar c = true) → captureAfter m stop l = none := by
  intro l
  induction l with
  | nil => intro _; rfl
  | cons c t ih =>
    intro hl
    have hfalse : isPre m (c :: t) = false := by
      cases h : isPre m (c :: t) with
      | false => rfl
      | true =>
        obtain ⟨c0, hc0m, hc0bad⟩ := hbad
        have := hl c0 (isPre_mem m (c :: t) h c0 hc0m)
        rw [this] at hc0bad
        exact absurd hc0bad (by simp)
    rw [captureAfter, hfalse]
    simp only [Bool.false_eq_true, if_false]
    exact ih (fun x hx => hl x (List.mem_cons_of_mem _ hx))

lemma captureAfter_append_none (m : List Char) (stop : Char → Bool)
    (hbad : ∀ k, k < m.length → ∃ c ∈ m.drop k, isIdChar c = false)
    (hm : m ≠ []) :
    ∀ (p l : List Char), noWin m p = true → (∀ c ∈ l, isIdChar c = true) →
      captureAfter m stop (p ++ l) = none := by
  intro p
  induction p with
  | nil =>
    intro l _ hl
    have h0 : 0 < m.length := List.length_pos.mpr hm
    exact captureAfter_sym_none m stop (by simpa using hbad 0 h0) l hl
  | cons c t ih =>
    intro l hp hl
    rw [noWin, Bool.and_eq_true] at hp
    have hfalse : isPre m (c :: (t ++ l)) = false := by
      show isPre m ((c :: t) ++ l) = false
      by_cases hlen : m.length ≤ (c :: t).length
      · rw [isPre_of_long m (c :: t) l hlen]
        have h1 := hp.1
        rw [if_pos hlen] at h1
        simpa using h1
      · push_neg at hlen
        cases h : isPre m ((c :: t) ++ l) with
        | false => rfl
        | true =>
          have hdrop := isPre_drop (c :: t) m l (le_of_lt hlen) h
          obtain ⟨c0, hc0m, hc0bad⟩ := hbad (c :: t).length hlen
          have hc0l : c0 ∈ l := isPre_mem _ l hdrop c0 hc0m
          rw [hl c0 hc0l] at hc0bad
          exact absurd hc0bad (by simp)
    show captureAfter m stop (c :: (t ++ l)) = none
    rw [captureAfter, hfalse]
    simp only [Bool.false_eq_true, if_false]
    exact ih l hp.2 hl

lemma takeWhile_all (p : Char → Bool) :
    ∀ (l : List Char), (∀ c ∈ l, p c = true) → l.takeWhile p = l := by
  intro l
  induction l with
  | nil => intro _; rfl
  | cons c t ih =>
    intro h
    rw [List.takeWhile_cons, h c (List.mem_cons_self _ _)]
    simp [ih (fun x hx => h x (List.mem_cons_of_mem _ hx))]

lemma captureAfter_append_match (m : List Char) (stop : Char → Bool) :
    ∀ (pre l : List Char), noWinM m pre = true → l ≠ [] →
      (∀ c ∈ l, stop c = false) →
      captureAfter m stop (pre ++ (m ++ l)) = some l := by
  intro pre
  induction pre with
  | nil =>
    intro l _ hl hstop
    cases hml : m ++ l with
    | nil =>
      exact absurd (List.append_eq_nil.mp hml).2 hl
    | cons d u =>
      have htrue : isPre m (d :: u) = true := hml ▸ isPre_append_self m l
      have hcap : ((d :: u).drop m.length).takeWhile (fun x => !stop x) = l := by
        rw [← hml, List.drop_left]
        exact takeWhile_all _ l (fun c hc => by simp [hstop c hc])
      show captureAfter m stop (d :: u) = some l
      rw [captureAfter, htrue]
      simp only [if_true]
      rw [hcap]
      simp [hl]
  | cons c t ih =>
    intro l hpre hl hstop
    rw [noWinM, Bool.and_eq_true, Bool.not_eq_true'] at hpre
    have hfalse : isPre m (c :: (t ++ (m ++ l))) = false := by
      show isPre m ((c :: t) ++ (m ++ l)) = false
      rw [show (c :: t) ++ (m ++ l) = ((c :: t) ++ m) ++ l from (List.append_assoc _ _ _).symm]
      rw [isPre_of_long m ((c :: t) ++ m) l (by simp; omega)]
      exact hpre.1
    show captureAfter m stop (c :: (t ++ (m ++ l))) = some l
    rw [captureAfter, hfalse]
    simp only [Bool.false_eq_true, if_false]
    exact ih l hpre.2 hl hstop

lemma stopAmp (c : Char) (h : isIdChar c = true) : (c == '&') = false := by
  cases hc : c == '&' with
  | false => rfl
  | true =>
    rw [eq_of_beq hc] at h
    exact absurd h (by decide)

lemma stopQ (c : Char) (h : isIdChar c = true) : (c == '?') = false := by
  cases hc : c == '?' with
  | false => rfl
  | true =>
    rw [eq_of_beq hc] at h
    exact absurd h (by decide)

lemma extractCore_watch (id : List Char) (hne : id ≠ [])
    (hch : ∀ c ∈ id, isIdChar c = true) :
    extractCore ("https://www.youtube.com/watch?v=".data ++ id) = some id := by
  have h1 : captureAfter watchMarker (fun c => c == '&')
      ("https://www.youtube.com/watch?v=".data ++ id) = some id := by
    rw [show "https://www.youtube.com/watch?v=".data = "https://www.".data ++ watchMarker
      by decide]
    rw [List.append_assoc]
    exact captureAfter_append_match watchMarker _ "https://www.".data id (by decide) hne
      (fun c hc => stopAmp c (hch c hc))
  unfold extractCore
  rw [h1]

lemma extractCore_embed (id : List Char) (hne : id ≠ [])
    (hch : ∀ c ∈ id, isIdChar c = true) :
    extractCore ("https://www.youtube.com/embed/".data ++ id) = some id := by
  have h1 : captureAfter watchMarker (fun c => c == '&')
      ("https://www.youtube.com/embed/".data ++ id) = none :=
    captureAfter_append_none watchMarker _ (by decide) (by decide)
      "https://www.youtube.com/embed/".data id (by decide) hch
  have h2 : captureAfter embedMarker (fun c => c == '?')
      ("https://www.youtube.com/embed/".data ++ id) = some id := by
    rw [show "https://www.youtube.com/embed/".data = "https://www.".data ++ embedMarker
      by decide]
    rw [List.append_assoc]
    exact captureAfter_append_match embedMarker _ "https://www.".data id (by decide) hne
      (fun c hc => stopQ c (hch c hc))
  unfold extractCore
  rw [h1, h2]

lemma extractCore_short (id : List Char) (hne : id ≠ [])
    (hch : ∀ c ∈ id, isIdChar c = true) :
    extractCore ("https://youtu.be/".data ++ id) = some id := by
  have h1 : captureAfter watchMarker (fun c => c == '&')
      ("https://youtu.be/".data ++ id) = none :=
    captureAfter_append_none watchMarker _ (by decide) (by decide)
      "https://youtu.be/".data id (by decide) hch
  have h2 : captureAfter embedMarker (fun c => c == '?')
      ("https://youtu.be/".data ++ id) = none :=
    captureAfter_append_none embedMarker _ (by decide) (by decide)
      "https://youtu.be/".data id (by decide) hch
  have h3 : captureAfter shortMarker (fun c => c == '?')
      ("https://youtu.be/".data ++ id) = some id := by
    rw [show "https://youtu.be/".data = "https://".data ++ shortMarker by decide]
    rw [List.append_assoc]
    exact captureAfter_append_match shortMarker _ "https://".data id (by decide) hne
      (fun c hc => stopQ c (hch c hc))
  unfold extractCore
  rw [h1, h2, h3]

lemma extractCore_bare (id : List Char) (h11 : id.length = 11)
    (hch : ∀ c ∈ id, isIdChar c = true) :
    extractCore id = some id := by
  have h1 : captureAfter watchMarker (fun c => c == '&') id = none := by
    simpa using captureAfter_append_none watchMarker _ (by decide) (by decide) [] id rfl hch
  have h2 : captureAfter embedMarker (fun c => c == '?') id = none := by
    simpa using captureAfter_append_none embedMarker _ (by decide) (by decide) [] id rfl hch
  have h3 : captureAfter shortMarker (fun c => c == '?') id = none := by
    simpa using captureAfter_append_none shortMarker _ (by decide) (by decide) [] id rfl hch
  unfold extractCore
  rw [h1, h2, h3]
  have hc : id.all isIdChar = true := List.all_eq_true.mpr hch
  simp [h11, hc]

end NormalizerLemmas

/-- C1: every accepted locator syntax denoting the same 11-character resource
identifier — full `watch?v=` URL, `embed/` URL, `youtu.be/` URL, or the bare
identifier — normalizes to the identical ResourceKey, the identifier itself;
the patterns are tried in the fixed source order with the first match winning,
and `extractVideoId` is a function of the input string, hence deterministic. -/
theorem extractVideoId_locator_forms (id : String)
    (h11 : id.length = 11) (hch : ∀ c ∈ id.data, isIdChar c = true) :
    extractVideoId ("https://www.youtube.com/watch?v=" ++ id) = some id ∧
    extractVideoId ("https://www.youtube.com/embed/" ++ id) = some id ∧
    extractVideoId ("https://youtu.be/" ++ id) = some id ∧
    extractVideoId id = some id := by
  have hlen : id.data.length = 11 := h11
  have hne : id.data ≠ [] := by
    intro h
    rw [h] at hlen
    simp at hlen
  refine ⟨?_, ?_, ?_, ?_⟩
  · show (extractCore (("https://www.youtube.com/watch?v=" ++ id).data)).map String.mk = some id
    rw [show ("https://www.youtube.com/watch?v=" ++ id).data =
      "https://www.youtube.com/watch?v=".data ++ id.data from rfl]
    rw [extractCore_watch id.data hne hch]
    rfl
  · show (extractCore (("https://www.youtube.com/embed/" ++ id).data)).map String.mk = some id
    rw [show ("https://www.youtube.com/embed/" ++ id).data =
      "https://www.youtube.com/embed/".data ++ id.data from rfl]
    rw [extractCore_embed id.data hne hch]
    rfl
  · show (extractCore (("https://youtu.be/" ++ id).data)).map String.mk = some id
    rw [show ("https://youtu.be/" ++ id).data =
      "https://youtu.be/".data ++ id.data from rfl]
    rw [extractCore_short id.data hne hch]
    rfl
  · show (extractCore id.data).map String.mk = some id
    rw [extractCore_bare id.data hlen hch]
    rfl

/-- Witness for C1 at the concrete identifier `abc12345678`. -/
theorem extractVideoId_locator_forms_witness :
    ("abc12345678" : String).length = 11 ∧
    (∀ c ∈ ("abc12345678" : String).data, isIdChar c = true) ∧
    (extractVideoId "https://www.youtube.com/watch?v=abc12345678" = some "abc12345678" ∧
     extractVideoId "https://www.youtube.com/embed/abc12345678" = some "abc12345678" ∧
     extractVideoId "https://youtu.be/abc12345678" = some "abc12345678" ∧
     extractVideoId "abc12345678" = some "abc12345678") :=
  ⟨by decide, by decide, extractVideoId_locator_forms "abc12345678" (by decide) (by decide)⟩

/-! ## Result cache

The server stores results in the external `node-cache` package, configured
at src/index.js lines 111-115 with `stdTTL: 3600` (1 hour).  The storage
semantics itself is not part of this repository's source. -/

/-- Modelled from the spec: the cache entry type of §3 — the stored value
together with its absolute expiry instant (`insertedAt + ttl`). -/
structure CacheEntry (α : Type) where
  value : α
  expiresAt : Nat
  deriving Repr, DecidableEq

/-- A cache is an association list from keys to entries; keys are unique
because `cachePut` replaces any previous binding. -/
abbrev CacheState (α : Type) : Type := List (String × CacheEntry α)

/-- Modelled from the spec (§4.3, the storage lives in the external
`node-cache` package): `get(key)` returns Miss if absent or expired; an
entry is live exactly while `now < insertedAt + ttl`. -/
def cacheGet {α : Type} : CacheState α → String → Nat → Option α
  | [], _, _ => none
  | (k', e) :: t, k, now =>
    if k' = k then (if now < e.expiresAt then some e.value else none)
    else cacheGet t k now

/-- Remove every binding of `k` (keys are unique in practice). -/
def cacheRemove {α : Type} : CacheState α → String → CacheState α
  | [], _ => []
  | (k', e) :: t, k => if k' = k then cacheRemove t k else (k', e) :: cacheRemove t k

/-- Modelled from the spec (§4.3): `put(k, r, ttl)` stores or replaces the
entry with expiry `now + ttl`. -/
def cachePut {α : Type} (c : CacheState α) (k : String) (v : α) (expiresAt : Nat) :
    CacheState α :=
  (k, ⟨v, expiresAt⟩) :: cacheRemove c k

/-- Whether any entry (live or not yet swept) is stored under exactly `k`. -/
def keyPresent {α : Type} : CacheState α → String → Bool
  | [], _ => false
  | (k', _) :: t, k => k' = k || keyPresent t k

/-- Modelled from the spec (§4.3): `invalidate(key)` removes the entry if
present and reports whether something was removed; mirrors `cache.del`
returning the number of deleted entries. -/
def cacheDel {α : Type} (c : CacheState α) (k : String) : Nat × CacheState α :=
  (if keyPresent c k then 1 else 0, cacheRemove c k)

/-- Default TTL configured at src/index.js line 113 (`stdTTL: 3600`). -/
def stdTTL : Nat := 3600

/-- C2: after `put(k, r, ttl)` at instant `t0`, a `get(k)` strictly before
`t0 + ttl` returns `r` unchanged and a `get(k)` at or after `t0 + ttl`
returns Miss; moreover `get` never returns a value from an expired entry of
any cache state. -/
theorem cache_roundtrip_ttl {α : Type} (c : CacheState α) (k : String) (r : α)
    (t0 ttl t : Nat) :
    (t < t0 + ttl → cacheGet (cachePut c k r (t0 + ttl)) k t = some r) ∧
    (t0 + ttl ≤ t → cacheGet (cachePut c k r (t0 + ttl)) k t = none) ∧
    (∀ (c' : CacheState α) (v : α) (now : Nat), cacheGet c' k now = some v →
      ∃ e ∈ c', e.1 = k ∧ e.2.value = v ∧ now < e.2.expiresAt) := by
  refine ⟨?_, ?_, ?_⟩
  · intro h
    simp [cachePut, cacheGet, h]
  · intro h
    simp [cachePut, cacheGet, Nat.not_lt.mpr h]
  · intro c' v now
    induction c' with
    | nil => intro h; simp [cacheGet] at h
    | cons p t' ih =>
      obtain ⟨k', e⟩ := p
      intro h
      rw [cacheGet] at h
      by_cases hk : k' = k
      · rw [if_pos hk] at h
        by_cases hlt : now < e.expiresAt
        · rw [if_pos hlt] at h
          exact ⟨(k', e), List.mem_cons_self _ _, hk, by injection h, hlt⟩
        · rw [if_neg hlt] at h
          exact absurd h (by simp)
      · rw [if_neg hk] at h
        obtain ⟨e', he', hprop⟩ := ih h
        exact ⟨e', List.mem_cons_of_mem _ he', hprop⟩

/-- Witness for C2 at `α = Nat`, `k = "k"`, `r = 7`, `t0 = 100`,
`ttl = 3600`, checking both sides of the expiry boundary and the
no-expired-hit invariant on a concrete state. -/
theorem cache_roundtrip_ttl_witness :
    (3699 < 100 + 3600 ∧
      cacheGet (cachePut ([] : CacheState Nat) "k" 7 (100 + 3600)) "k" 3699 = some 7) ∧
    (100 + 3600 ≤ 3700 ∧
      cacheGet (cachePut ([] : CacheState Nat) "k" 7 (100 + 3600)) "k" 3700 = none) ∧
    (cacheGet ([("k", (⟨7, 3700⟩ : CacheEntry Nat))] : CacheState Nat) "k" 100 = some 7 ∧
      ∃ e ∈ ([("k", (⟨7, 3700⟩ : CacheEntry Nat))] : CacheState Nat),
        e.1 = "k" ∧ e.2.value = 7 ∧ 100 < e.2.expiresAt) :=
  ⟨⟨by decide, (cache_roundtrip_ttl ([] : CacheState Nat) "k" 7 100 3600 3699).1 (by decide)⟩,
   ⟨by decide, (cache_roundtrip_ttl ([] : CacheState Nat) "k" 7 100 3600 3700).2.1 (by decide)⟩,
   ⟨rfl, (cache_roundtrip_ttl ([] : CacheState Nat) "k" 7 100 3600 3700).2.2
     [("k", (⟨7, 3700⟩ : CacheEntry Nat))] 7 100 rfl⟩⟩

/-! ## Upstream fetch and error classification (src/index.js lines 244-331) -/

/-- `containsSub n h` : the character list `n` occurs as a contiguous
substring of `h` (JavaScript `String.prototype.includes`). -/
def containsSub (n : List Char) : List Char → Bool
  | [] => isPre n []
  | c :: t => isPre n (c :: t) || containsSub n t

/-- String-level `includes`. -/
def strIncludes (h n : String) : Bool := containsSub n.data h.data

/-- The catch-block of `fetchTranscript` (src/index.js lines 306-319):
known upstream failure signatures are matched by message substring and
re-thrown under a fixed category message; anything unrecognized is
re-thrown unchanged. -/
def classifyErr (msg : String) : String :=
  if strIncludes msg "Video unavailable" then "Video is unavailable or private"
  else if strIncludes msg "Transcript is disabled" then "Transcripts are disabled for this video"
  else if strIncludes msg "No transcripts available" then "No transcript available for this video"
  else msg

/-- One raw segment as returned by the upstream `youtube-transcript-plus`
library: text, offset and duration in milliseconds, and a language tag.
(The source divides `duration` by 1000 into seconds as a float; we keep
milliseconds to stay in integer arithmetic.) -/
structure RawSegment where
  text : String
  offset : Nat
  durationMs : Nat
  lang : String
  deriving Repr, DecidableEq

/-- `formatTime` (src/index.js lines 322-331): milliseconds → `HH:MM:SS`. -/
def pad2 (n : Nat) : String :=
  if (Nat.repr n).length < 2 then "0" ++ Nat.repr n else Nat.repr n

def formatTime (ms : Nat) : String :=
  let s := ms / 1000
  pad2 (s / 3600) ++ ":" ++ pad2 (s % 3600 / 60) ++ ":" ++ pad2 (s % 60)

/-- One formatted segment of the API response (src/index.js lines 289-293). -/
structure FormattedSegment where
  start : String
  text : String
  durationMs : Nat
  deriving Repr, DecidableEq

/-- The success payload built by `fetchTranscript`
(src/index.js lines 299-305). -/
structure TranscriptResult where
  title : String
  videoId : String
  transcript : List FormattedSegment
  segmentCount : Nat
  language : String
  deriving Repr, DecidableEq

/-- `fetchTranscript` (src/index.js lines 244-320).  The upstream library
call is opaque; its outcome is a parameter: either an error message or the
raw segment list.  A thrown `extractVideoId` error and the zero-segment
check both pass through the same catch-block classifier. -/
def fetchTranscript (videoUrl : String)
    (outcome : Except String (List RawSegment)) : Except String TranscriptResult :=
  match extractVideoId videoUrl with
  | none => .error (classifyErr "Invalid YouTube URL")
  | some vid =>
    match outcome with
    | .error msg => .error (classifyErr msg)
    | .ok data =>
      if data.length = 0 then .error (classifyErr "No transcript available for this video")
      else
        let formatted := data.map (fun s =>
          { start := formatTime s.offset, text := s.text, durationMs := s.durationMs })
        .ok {
          title := "Video " ++ vid
          videoId := vid
          transcript := formatted
          segmentCount := formatted.length
          language := match data.head? with
            | some s => if s.lang = "" then "unknown" else s.lang
            | none => "unknown" }

example : classifyErr "Request failed: Video unavailable (410)" = "Video is unavailable or private" := by decide
example : classifyErr "some strange failure" = "some strange failure" := by decide
example : classifyErr "No transcript available for this video" = "No transcript available for this video" := by decide

/-! ## GET /transcript handler (src/index.js lines 146-216) -/

/-- Response body of the transcript endpoint: either an error message or a
result tagged with the `cached` flag. -/
inductive ResponseBody where
  | errorMsg (msg : String)
  | result (r : TranscriptResult) (cached : Bool)
  deriving Repr, DecidableEq

/-- Observable outcome of one `GET /transcript` request: HTTP status, the
cache state after the request, whether `cache.get` was reached, whether
`fetchTranscript` was invoked, and the response body. -/
structure HandlerOutcome where
  status : Nat
  cacheAfter : CacheState TranscriptResult
  cacheRead : Bool
  upstreamCalled : Bool
  body : ResponseBody
  deriving Repr, DecidableEq

/-- The deadline race (src/index.js lines 186-193, `Promise.race` against a
`setTimeout` of `deadline` ms): the upstream promise wins only if it
settles at some instant strictly before the deadline; `none` models a fetch
that never settles. -/
def upstreamWins (utime : Option Nat) (deadline : Nat) : Bool :=
  match utime with
  | some tu => tu < deadline
  | none => false

/-- Default timeout configured at src/index.js line 147. -/
def defaultTimeout : Nat := 30000

/-- `GET /transcript` (src/index.js lines 146-216).  Inputs: the optional
`videoUrl` query parameter, the cache state, the current instant, the TTL
and deadline configuration, the settle time of the upstream promise
(relative to the start of the race) and its outcome. -/
def transcriptHandler (videoUrl : Option String) (c : CacheState TranscriptResult)
    (now ttl deadline : Nat) (utime : Option Nat)
    (outcome : Except String (List RawSegment)) : HandlerOutcome :=
  match videoUrl with
  | none => ⟨400, c, false, false, .errorMsg "Missing videoUrl parameter"⟩
  | some u =>
    if u = "" then ⟨400, c, false, false, .errorMsg "Missing videoUrl parameter"⟩
    else if 200 < u.length then ⟨400, c, false, false, .errorMsg "Invalid videoUrl parameter"⟩
    else
      match extractVideoId u with
      | none => ⟨400, c, false, false, .errorMsg "Invalid YouTube URL"⟩
      | some vid =>
        match cacheGet c vid now with
        | some r => ⟨200, c, true, false, .result r true⟩
        | none =>
          if upstreamWins utime deadline then
            match fetchTranscript u outcome with
            | .ok r => ⟨200, cachePut c vid r (now + ttl), true, true, .result r false⟩
            | .error msg =>
              if msg = "Request timeout" then
                ⟨504, c, true, true,
                  .errorMsg "Request timeout - the video transcript took too long to fetch"⟩
              else ⟨500, c, true, true, .errorMsg ("Error fetching transcript: " ++ msg)⟩
          else
            ⟨504, c, true, true,
              .errorMsg "Request timeout - the video transcript took too long to fetch"⟩

/-- C3: if the upstream fetch does not settle strictly before the deadline,
the timer wins the race: the endpoint responds 504 with the timeout message,
writes nothing to the cache, and the response does not depend on the
upstream outcome at all (the fetch is not awaited further). -/
theorem timeout_race_504 (u vid : String) (c : CacheState TranscriptResult)
    (now ttl deadline : Nat) (utime : Option Nat)
    (outcome : Except String (List RawSegment))
    (hnv : u ≠ "") (hlen : u.length ≤ 200)
    (hvid : extractVideoId u = some vid)
    (hmiss : cacheGet c vid now = none)
    (hlate : ∀ tu, utime = some tu → deadline ≤ tu) :
    (transcriptHandler (some u) c now ttl deadline utime outcome).status = 504 ∧
    (transcriptHandler (some u) c now ttl deadline utime outcome).cacheAfter = c ∧
    (transcriptHandler (some u) c now ttl deadline utime outcome).body =
      .errorMsg "Request timeout - the video transcript took too long to fetch" ∧
    (∀ outcome', transcriptHandler (some u) c now ttl deadline utime outcome' =
      transcriptHandler (some u) c now ttl deadline utime outcome) := by
  have hwins : upstreamWins utime deadline = false := by
    cases utime with
    | none => rfl
    | some tu => simp [upstreamWins, Nat.not_lt.mpr (hlate tu rfl)]
  have hnl : ¬ (200 < u.length) := Nat.not_lt.mpr hlen
  refine ⟨?_, ?_, ?_, ?_⟩ <;>
    simp [transcriptHandler, hnv, hnl, hvid, hmiss, hwins]

/-- Witness for C3: bare id locator, empty cache, an upstream fetch that
never settles. -/
theorem timeout_race_504_witness :
    ("abc12345678" : String) ≠ "" ∧ ("abc12345678" : String).length ≤ 200 ∧
    extractVideoId "abc12345678" = some "abc12345678" ∧
    cacheGet ([] : CacheState TranscriptResult) "abc12345678" 0 = none ∧
    (transcriptHandler (some "abc12345678") [] 0 stdTTL defaultTimeout none
      (.ok [])).status = 504 ∧
    (transcriptHandler (some "abc12345678") [] 0 stdTTL defaultTimeout none
      (.ok [])).cacheAfter = [] :=
  ⟨by decide, by decide, by decide, rfl,
   (timeout_race_504 "abc12345678" "abc12345678" [] 0 stdTTL defaultTimeout none (.ok [])
     (by decide) (by decide) (by decide) rfl (fun tu h => by cases h)).1,
   (timeout_race_504 "abc12345678" "abc12345678" [] 0 stdTTL defaultTimeout none (.ok [])
     (by decide) (by decide) (by decide) rfl (fun tu h => by cases h)).2.1⟩

/-- C6: every malformed locator — empty, longer than the 200-character
bound, or matching no accepted syntax — is rejected with status 400 and the
request touches neither the cache nor the upstream fetch. -/
theorem malformed_locator_400 (c : CacheState TranscriptResult)
    (now ttl deadline : Nat) (utime : Option Nat)
    (outcome : Except String (List RawSegment)) :
    (transcriptHandler (some "") c now ttl deadline utime outcome =
      ⟨400, c, false, false, .errorMsg "Missing videoUrl parameter"⟩) ∧
    (∀ u : String, 200 < u.length →
      transcriptHandler (some u) c now ttl deadline utime outcome =
        ⟨400, c, false, false, .errorMsg "Invalid videoUrl parameter"⟩) ∧
    (∀ u : String, u ≠ "" → u.length ≤ 200 → extractVideoId u = none →
      transcriptHandler (some u) c now ttl deadline utime outcome =
        ⟨400, c, false, false, .errorMsg "Invalid YouTube URL"⟩) := by
  refine ⟨by simp [transcriptHandler], ?_, ?_⟩
  · intro u h
    have hne : u ≠ "" := by
      intro he
      rw [he] at h
      simp at h
    simp [transcriptHandler, hne, h]
  · intro u hne hlen hext
    simp [transcriptHandler, hne, Nat.not_lt.mpr hlen, hext]

set_option maxRecDepth 4000 in
/-- Witness for C6: the empty locator, a 201-character locator, and a short
unrecognized locator. -/
theorem malformed_locator_400_witness :
    (transcriptHandler (some "") [] 0 stdTTL defaultTimeout none (.ok []) =
      ⟨400, [], false, false, .errorMsg "Missing videoUrl parameter"⟩) ∧
    (200 < (String.mk (List.replicate 201 'a')).length ∧
     transcriptHandler (some (String.mk (List.replicate 201 'a'))) [] 0 stdTTL
       defaultTimeout none (.ok []) =
       ⟨400, [], false, false, .errorMsg "Invalid videoUrl parameter"⟩) ∧
    (("hello" : String) ≠ "" ∧ ("hello" : String).length ≤ 200 ∧
     extractVideoId "hello" = none ∧
     transcriptHandler (some "hello") [] 0 stdTTL defaultTimeout none (.ok []) =
       ⟨400, [], false, false, .errorMsg "Invalid YouTube URL"⟩) :=
  ⟨(malformed_locator_400 [] 0 stdTTL defaultTimeout none (.ok [])).1,
   ⟨by decide,
    (malformed_locator_400 [] 0 stdTTL defaultTimeout none (.ok [])).2.1
      (String.mk (List.replicate 201 'a')) (by decide)⟩,
   ⟨by decide, by decide, by decide,
    (malformed_locator_400 [] 0 stdTTL defaultTimeout none (.ok [])).2.2
      "hello" (by decide) (by decide) (by decide)⟩⟩

lemma transcriptHandler_status_or_cache (videoUrl : Option String)
    (c : CacheState TranscriptResult) (now ttl deadline : Nat)
    (utime : Option Nat) (outcome : Except String (List RawSegment)) :
    (transcriptHandler videoUrl c now ttl deadline utime outcome).status = 200 ∨
    (transcriptHandler videoUrl c now ttl deadline utime outcome).cacheAfter = c := by
  cases videoUrl with
  | none => right; rfl
  | some u =>
    by_cases h1 : u = ""
    · right; simp [transcriptHandler, h1]
    · by_cases h2 : 200 < u.length
      · right; simp [transcriptHandler, h1, h2]
      · cases hext : extractVideoId u with
        | none => right; simp [transcriptHandler, h1, h2, hext]
        | some vid =>
          cases hcg : cacheGet c vid now with
          | some r => left; simp [transcriptHandler, h1, h2, hext, hcg]
          | none =>
            by_cases hw : upstreamWins utime deadline = true
            · cases hf : fetchTranscript u outcome with
              | ok r => left; simp [transcriptHandler, h1, h2, hext, hcg, hw, hf]
              | error msg =>
                by_cases hm : msg = "Request timeout"
                · right; simp [transcriptHandler, h1, h2, hext, hcg, hw, hf, hm]
                · right; simp [transcriptHandler, h1, h2, hext, hcg, hw, hf, hm]
            · right
              simp [transcriptHandler, h1, h2, hext, hcg, hw]

/-- C9: a request that does not end in a successful (200) response performs
no cache write — the cache state after the request equals the state
before. -/
theorem error_request_no_cache_write (videoUrl : Option String)
    (c : CacheState TranscriptResult) (now ttl deadline : Nat)
    (utime : Option Nat) (outcome : Except String (List RawSegment))
    (h : (transcriptHandler videoUrl c now ttl deadline utime outcome).status ≠ 200) :
    (transcriptHandler videoUrl c now ttl deadline utime outcome).cacheAfter = c :=
  (transcriptHandler_status_or_cache videoUrl c now ttl deadline utime outcome).resolve_left h

/-- Witness for C9: a missing `videoUrl` parameter (status 400) leaves the
cache untouched. -/
theorem error_request_no_cache_write_witness :
    (transcriptHandler none [] 0 stdTTL defaultTimeout none (.ok [])).status ≠ 200 ∧
    (transcriptHandler none [] 0 stdTTL defaultTimeout none (.ok [])).cacheAfter = [] :=
  ⟨by decide,
   error_request_no_cache_write none [] 0 stdTTL defaultTimeout none (.ok []) (by decide)⟩

/-- C7: a zero-segment upstream result yields the NoTranscriptAvailable
message; known upstream failure signatures map by substring match to their
fixed categories (ResourceUnavailable, TranscriptsDisabled,
NoTranscriptAvailable); any unrecognized error falls through unchanged and
is surfaced by the endpoint as a 500 with the original message preserved. -/
theorem error_classification
    : (∀ (u vid : String), extractVideoId u = some vid →
        fetchTranscript u (.ok []) = .error "No transcript available for this video") ∧
      (∀ msg : String, strIncludes msg "Video unavailable" = true →
        classifyErr msg = "Video is unavailable or private") ∧
      (∀ msg : String, strIncludes msg "Video unavailable" = false →
        strIncludes msg "Transcript is disabled" = true →
        classifyErr msg = "Transcripts are disabled for this video") ∧
      (∀ msg : String, strIncludes msg "Video unavailable" = false →
        strIncludes msg "Transcript is disabled" = false →
        strIncludes msg "No transcripts available" = true →
        classifyErr msg = "No transcript available for this video") ∧
      (∀ msg : String, strIncludes msg "Video unavailable" = false →
        strIncludes msg "Transcript is disabled" = false →
        strIncludes msg "No transcripts available" = false →
        classifyErr msg = msg) ∧
      (∀ (u vid msg : String) (c : CacheState TranscriptResult)
          (now ttl deadline tu : Nat),
        u ≠ "" → u.length ≤ 200 → extractVideoId u = some vid →
        cacheGet c vid now = none → tu < deadline →
        classifyErr msg = msg → msg ≠ "Request timeout" →
        transcriptHandler (some u) c now ttl deadline (some tu) (.error msg) =
          ⟨500, c, true, true, .errorMsg ("Error fetching transcript: " ++ msg)⟩) := by
  refine ⟨?_, ?_, ?_, ?_, ?_, ?_⟩
  · intro u vid h
    have hcl : classifyErr "No transcript available for this video" =
      "No transcript available for this video" := by decide
    unfold fetchTranscript
    rw [h]
    simp [hcl]
  · intro msg h
    simp [classifyErr, h]
  · intro msg h1 h2
    simp [classifyErr, h1, h2]
  · intro msg h1 h2 h3
    simp [classifyErr, h1, h2, h3]
  · intro msg h1 h2 h3
    simp [classifyErr, h1, h2, h3]
  · intro u vid msg c now ttl deadline tu hne hlen hvid hmiss htu hpres hnt
    have hw : upstreamWins (some tu) deadline = true := by
      simp [upstreamWins, htu]
    have hf : fetchTranscript u (.error msg) = .error msg := by
      unfold fetchTranscript
      rw [hvid]
      simp [hpres]
    simp [transcriptHandler, hne, Nat.not_lt.mpr hlen, hvid, hmiss, hw, hf, hnt]

/-- Witness for C7: each classification branch exercised on a concrete
message, and the unrecognized branch surfaced end-to-end as 500. -/
theorem error_classification_witness :
    (extractVideoId "abc12345678" = some "abc12345678" ∧
      fetchTranscript "abc12345678" (.ok []) =
        .error "No transcript available for this video") ∧
    (strIncludes "err: Video unavailable" "Video unavailable" = true ∧
      classifyErr "err: Video unavailable" = "Video is unavailable or private") ∧
    (classifyErr "Transcript is disabled on this one" =
      "Transcripts are disabled for this video") ∧
    (classifyErr "sorry, No transcripts available here" =
      "No transcript available for this video") ∧
    (classifyErr "mysterious proxy error" = "mysterious proxy error") ∧
    (transcriptHandler (some "abc12345678") [] 0 stdTTL defaultTimeout (some 5)
        (.error "mysterious proxy error") =
      ⟨500, [], true, true,
        .errorMsg ("Error fetching transcript: " ++ "mysterious proxy error")⟩) :=
  ⟨⟨by decide, error_classification.1 "abc12345678" "abc12345678" (by decide)⟩,
   ⟨by decide, error_classification.2.1 "err: Video unavailable" (by decide)⟩,
   error_classification.2.2.1 "Transcript is disabled on this one" (by decide) (by decide),
   error_classification.2.2.2.1 "sorry, No transcripts available here"
     (by decide) (by decide) (by decide),
   error_classification.2.2.2.2.1 "mysterious proxy error"
     (by decide) (by decide) (by decide),
   error_classification.2.2.2.2.2 "abc12345678" "abc12345678" "mysterious proxy error"
     [] 0 stdTTL defaultTimeout 5 (by decide) (by decide) (by decide) rfl (by decide)
     (by decide) (by decide)⟩

/-- C10: every successful retrieval carries the literal title
`"Video " ++ key` — the normalized resource key prefixed by the fixed
string — never an upstream-provided title. -/
theorem title_is_video_prefix (u : String) (outcome : Except String (List RawSegment))
    (r : TranscriptResult) (h : fetchTranscript u outcome = .ok r) :
    ∃ vid, extractVideoId u = some vid ∧ r.title = "Video " ++ vid := by
  unfold fetchTranscript at h
  cases hext : extractVideoId u with
  | none =>
    rw [hext] at h
    exact absurd h (by simp)
  | some vid =>
    rw [hext] at h
    refine ⟨vid, rfl, ?_⟩
    cases outcome with
    | error msg => simp at h
    | ok data =>
      by_cases hd : data.length = 0
      · simp [hd] at h
      · simp [hd] at h
        rw [← h]

/-- Witness for C10 at a concrete one-segment upstream result. -/
theorem title_is_video_prefix_witness :
    fetchTranscript "https://youtu.be/abc12345678"
        (.ok [{ text := "hi", offset := 0, durationMs := 1000, lang := "en" }]) =
      .ok { title := "Video abc12345678", videoId := "abc12345678",
            transcript := [{ start := "00:00:00", text := "hi", durationMs := 1000 }],
            segmentCount := 1, language := "en" } ∧
    (∃ vid, extractVideoId "https://youtu.be/abc12345678" = some vid ∧
      ("Video abc12345678" : String) = "Video " ++ vid) :=
  ⟨by decide,
   title_is_video_prefix "https://youtu.be/abc12345678"
     (.ok [{ text := "hi", offset := 0, durationMs := 1000, lang := "en" }])
     { title := "Video abc12345678", videoId := "abc12345678",
       transcript := [{ start := "00:00:00", text := "hi", durationMs := 1000 }],
       segmentCount := 1, language := "en" } (by decide)⟩

/-! ## DELETE /cache/:videoId (src/index.js lines 226-233) -/

structure DeleteOutcome where
  status : Nat
  success : Bool
  message : String
  cacheAfter : CacheState TranscriptResult
  deriving Repr, DecidableEq

/-- `DELETE /cache/:videoId`: calls `cache.del` with the path parameter
exactly as supplied — it is never passed through `extractVideoId` — and
reports `success` iff something was deleted; `res.json` defaults to 200. -/
def deleteCacheHandler (videoId : String) (c : CacheState TranscriptResult) :
    DeleteOutcome :=
  let d := cacheDel c videoId
  ⟨200, decide (0 < d.1),
   if 0 < d.1 then "Cache cleared" else "Video not found in cache", d.2⟩

/-- C8: the delete endpoint always answers 200, its `success` field is true
exactly when an entry was stored under the exact supplied key, and the key
is used as-is: a non-canonical locator that would normalize to a cached key
does not match that key's entry. -/
theorem delete_cache_exact_key :
    (∀ (k : String) (c : CacheState TranscriptResult),
      (deleteCacheHandler k c).status = 200 ∧
      (deleteCacheHandler k c).success = keyPresent c k) ∧
    (∀ (u vid : String) (e : CacheEntry TranscriptResult),
      extractVideoId u = some vid → u ≠ vid →
      (deleteCacheHandler u [(vid, e)]).success = false) := by
  constructor
  · intro k c
    refine ⟨rfl, ?_⟩
    by_cases h : keyPresent c k = true
    · simp [deleteCacheHandler, cacheDel, h]
    · simp only [Bool.not_eq_true] at h
      simp [deleteCacheHandler, cacheDel, h]
  · intro u vid e hvid hne
    have hkp : keyPresent [(vid, e)] u = false := by
      simp [keyPresent]
      exact Ne.symm hne
    simp [deleteCacheHandler, cacheDel, hkp]

/-- Witness for C8: a cached canonical key is not matched by the full-URL
locator that normalizes to it. -/
theorem delete_cache_exact_key_witness :
    extractVideoId "https://youtu.be/abc12345678" = some "abc12345678" ∧
    ("https://youtu.be/abc12345678" : String) ≠ "abc12345678" ∧
    (deleteCacheHandler "https://youtu.be/abc12345678"
      [("abc12345678", ⟨⟨"t", "v", [], 0, "en"⟩, 3600⟩)]).success = false :=
  ⟨by decide, by decide,
   delete_cache_exact_key.2 "https://youtu.be/abc12345678" "abc12345678"
     ⟨⟨"t", "v", [], 0, "en"⟩, 3600⟩ (by decide) (by decide)⟩

/-! ## Rate limiter (src/index.js lines 117-130) -/

/-- Window duration configured at src/index.js line 119 (`60 * 1000` ms). -/
def windowMs : Nat := 60 * 1000

/-- Per-window maximum configured at src/index.js line 120. -/
def maxPerWindow : Nat := 30

/-- Modelled from the spec (§3): per-client window record. -/
structure RateWindow where
  windowStart : Nat
  count : Nat
  deriving Repr, DecidableEq

/-- Modelled from the spec (§4.2; the counting itself lives in the external
`express-rate-limit` package): fixed-window admission — if the recorded
window has elapsed, reset the count to 0 and start a new window, then count
the current request; admit iff the new count is within the limit. -/
def rlAdmit (w : Option RateWindow) (now : Nat) : Bool × RateWindow :=
  let w0 : RateWindow :=
    match w with
    | none => ⟨now, 0⟩
    | some ww => if ww.windowStart + windowMs ≤ now then ⟨now, 0⟩ else ww
  (decide (w0.count + 1 ≤ maxPerWindow), ⟨w0.windowStart, w0.count + 1⟩)

/-- State of one client's window after `n` requests all issued at `t0`. -/
def rlIter (t0 : Nat) : Nat → Option RateWindow
  | 0 => none
  | n + 1 => some (rlAdmit (rlIter t0 n) t0).2

lemma rl_no_reset (t0 : Nat) : ¬ (t0 + windowMs ≤ t0) := by
  simp only [windowMs]
  omega

lemma rlIter_eq (t0 : Nat) :
    ∀ n : Nat, rlIter t0 n = if n = 0 then none else some ⟨t0, n⟩ := by
  intro n
  induction n with
  | zero => rfl
  | succ k ih =>
    rw [rlIter, ih]
    by_cases hk : k = 0
    · subst hk
      simp [rlAdmit]
    · rw [if_neg hk]
      simp [rlAdmit, rl_no_reset t0, hk]

/-- Routes of the server (src/index.js); `other` is the 404 fallthrough. -/
inductive Route where
  | health | transcript | cacheStats | cacheDelete | cacheClear | other
  deriving Repr, DecidableEq

/-- The limiter runs before every route (src/index.js line 130,
`app.use(limiter)`); a rejected request gets 429 with the fixed message of
line 121 regardless of which route was addressed. -/
def appRespond (w : Option RateWindow) (now : Nat) (route : Route)
    (dispatch : Route → Nat × String) : (Nat × String) × RateWindow :=
  let a := rlAdmit w now
  if a.1 then (dispatch route, a.2)
  else ((429, "Too many requests from this IP, please try again later."), a.2)

/-- C5: for one client, the first 30 requests inside a window are admitted
and the 31st in the same window is rejected; a request after the window has
elapsed resets the count (to 0, then counting itself: 1) and is admitted;
and a rejected request gets 429 with the fixed message on every route. -/
theorem rate_limiter_window :
    (∀ t0 k : Nat, k < 30 → (rlAdmit (rlIter t0 k) t0).1 = true) ∧
    (∀ t0 : Nat, (rlAdmit (rlIter t0 30) t0).1 = false) ∧
    (∀ t0 cnt t1 : Nat, t0 + windowMs ≤ t1 →
      rlAdmit (some ⟨t0, cnt⟩) t1 = (true, ⟨t1, 1⟩)) ∧
    (∀ (w : Option RateWindow) (now : Nat) (route : Route)
        (dispatch : Route → Nat × String),
      (rlAdmit w now).1 = false →
      (appRespond w now route dispatch).1 =
        (429, "Too many requests from this IP, please try again later.")) := by
  refine ⟨?_, ?_, ?_, ?_⟩
  · intro t0 k hk
    rw [rlIter_eq]
    by_cases h0 : k = 0
    · subst h0
      simp [rlAdmit, maxPerWindow]
    · rw [if_neg h0]
      simp [rlAdmit, rl_no_reset t0, maxPerWindow]
      omega
  · intro t0
    rw [rlIter_eq]
    simp [rlAdmit, rl_no_reset t0, maxPerWindow]
  · intro t0 cnt t1 h
    simp [rlAdmit, h, maxPerWindow]
  · intro w now route dispatch h
    simp [appRespond, h]

/-- Witness for C5: the 6th request of a burst is admitted, the reset case
at `t1 = 60000`, and a rejected request on the health route answers 429. -/
theorem rate_limiter_window_witness :
    (5 < 30 ∧ (rlAdmit (rlIter 0 5) 0).1 = true) ∧
    (rlAdmit (rlIter 0 30) 0).1 = false ∧
    (0 + windowMs ≤ 60000 ∧
      rlAdmit (some ⟨0, 31⟩) 60000 = (true, ⟨60000, 1⟩)) ∧
    ((rlAdmit (some ⟨0, 30⟩) 0).1 = false ∧
      (appRespond (some ⟨0, 30⟩) 0 .health (fun _ => (200, "ok"))).1 =
        (429, "Too many requests from this IP, please try again later.")) :=
  ⟨⟨by decide, rate_limiter_window.1 0 5 (by decide)⟩,
   rate_limiter_window.2.1 0,
   ⟨by decide, rate_limiter_window.2.2.1 0 31 60000 (by decide)⟩,
   ⟨by decide, rate_limiter_window.2.2.2 (some ⟨0, 30⟩) 0 .health
     (fun _ => (200, "ok")) (by decide)⟩⟩

/-! ## Concurrent cache misses (single-flight, spec §4.3 / §9) -/

/-- Phase of one `GET /transcript` request on the miss path: the handler
first reads the cache; on a miss it invokes the upstream fetch and then
writes the result (src/index.js lines 174-196).  The code keeps no
in-flight registry coordinating concurrent requests for the same key. -/
inductive Phase where
  | toRead | toFetch | finished
  deriving Repr, DecidableEq

/-- Shared state of two concurrent requests for the same key: the cache,
the number of upstream fetch invocations so far, and each request's
phase. -/
structure TwoReqState where
  cache : CacheState TranscriptResult
  fetchCount : Nat
  p1 : Phase
  p2 : Phase
  deriving Repr, DecidableEq

/-- One cooperative step of a single request for key `vid`. -/
def reqStep (vid : String) (now ttl : Nat) (r : TranscriptResult)
    (c : CacheState TranscriptResult) (fc : Nat) :
    Phase → CacheState TranscriptResult × Nat × Phase
  | .toRead => if (cacheGet c vid now).isSome then (c, fc, .finished) else (c, fc, .toFetch)
  | .toFetch => (cachePut c vid r (now + ttl), fc + 1, .finished)
  | .finished => (c, fc, .finished)

/-- Interleave two requests by a schedule: `true` steps request 1, `false`
steps request 2. -/
def runSched (vid : String) (now ttl : Nat) (r : TranscriptResult) :
    List Bool → TwoReqState → TwoReqState
  | [], s => s
  | b :: rest, s =>
    if b then
      let st := reqStep vid now ttl r s.cache s.fetchCount s.p1
      runSched vid now ttl r rest ⟨st.1, st.2.1, st.2.2, s.p2⟩
    else
      let st := reqStep vid now ttl r s.cache s.fetchCount s.p2
      runSched vid now ttl r rest ⟨st.1, st.2.1, s.p1, st.2.2⟩

/-- C4 fails on the code: starting from an empty cache, the interleaving in
which both requests perform their cache read before either one writes makes
both reads miss, and both requests invoke the upstream fetch — two
invocations for one key, with no coalescing. -/
theorem single_flight_violated :
    (runSched "abc12345678" 0 3600
      ⟨"Video abc12345678", "abc12345678", [], 0, "unknown"⟩
      [true, false, true, false] ⟨[], 0, .toRead, .toRead⟩).fetchCount = 2 := by
  decide

end YtWorker
